import Mathlib

/-!
Shallow embedding of the streaming column-profiling engine of the
`rdm-integration` repository.  The profiling core appears in three
near-identical copies (`src/image/csv_to_cdi.py`,
`src/image/cdi_generator.py`, `src/image/cdi_generator_jsonld.py`); it is
embedded here once.  Pure Python functions become Lean functions; the
`ColumnStats` mutable object becomes a record threaded through `update`;
Python exceptions become `Except`; the third-party HyperLogLog sketch
(`datasketch`) and the third-party datetime parser (`dateutil`) are not part
of the repository, so they are modelled from the spec (see the doc comments
on `bumpReg` and on the `isdt` parameters).
-/

namespace Profiling

/-- `MISSING` (csv_to_cdi.py line 85): the fixed, case-sensitive set of
missing-value tokens, matched against the trimmed cell. -/
def MISSING : List String :=
  ["", "na", "n/a", "null", "none", "nan", "NA", "N/A", "NULL", "None", "NaN"]

/-- ASCII lower-casing of one character (Python `str.lower()` restricted to
ASCII; every set this code compares lowered tokens against is ASCII). -/
def lowChar : Char → Char
  | 'A' => 'a' | 'B' => 'b' | 'C' => 'c' | 'D' => 'd' | 'E' => 'e' | 'F' => 'f'
  | 'G' => 'g' | 'H' => 'h' | 'I' => 'i' | 'J' => 'j' | 'K' => 'k' | 'L' => 'l'
  | 'M' => 'm' | 'N' => 'n' | 'O' => 'o' | 'P' => 'p' | 'Q' => 'q' | 'R' => 'r'
  | 'S' => 's' | 'T' => 't' | 'U' => 'u' | 'V' => 'v' | 'W' => 'w' | 'X' => 'x'
  | 'Y' => 'y' | 'Z' => 'z'
  | c => c

/-- Whitespace characters removed by Python `str.strip()` (ASCII range). -/
def isSpaceChar (c : Char) : Bool :=
  c = ' ' || c = '\t' || c = '\n' || c = '\r' || c = '\x0b' || c = '\x0c'

/-- Whitespace stripping on both ends, over the character list. -/
def stripChars (l : List Char) : List Char :=
  ((l.dropWhile isSpaceChar).reverse.dropWhile isSpaceChar).reverse

/-- Python `str.strip()` on a token (`raw.strip()` in `ColumnStats.update`,
`cell.strip()` in `detect_header_mode`, `name.strip()` in
`stream_profile_csv`). -/
def pyStrip (s : String) : String :=
  ⟨stripChars s.data⟩

/-- Continuation of an ASCII digit run in which a single underscore may
stand strictly between two digits (CPython's digit-grouping rule for
`int()` / `float()` string parsing).  The leading digit has already been
consumed by `digits1`. -/
def digitTail : List Char → Bool
  | [] => true
  | ['_'] => false
  | '_' :: c :: rest => c.isDigit && digitTail rest
  | c :: rest => c.isDigit && digitTail rest

/-- A non-empty ASCII digit run with optional single underscores between
digits. -/
def digits1 : List Char → Bool
  | [] => false
  | c :: rest => c.isDigit && digitTail rest

/-- `is_int` (csv_to_cdi.py lines 87-94): `int(s)` succeeds, i.e. optional
sign followed by a digit run.  `int()` also tolerates surrounding
whitespace, but every call site in the source applies it to an
already-stripped token, so the model takes the trimmed token directly.
Non-ASCII decimal digits are out of scope of the model. -/
def is_int (s : String) : Bool :=
  match s.data with
  | '+' :: rest => digits1 rest
  | '-' :: rest => digits1 rest
  | cs => digits1 cs

/-- Splits the character list at the first exponent marker `e`/`E`
(mantissa, optional exponent tail), mirroring the shape accepted by
CPython `float()`. -/
def splitAtExp : List Char → List Char × Option (List Char)
  | [] => ([], none)
  | c :: rest =>
    if c = 'e' ∨ c = 'E' then ([], some rest)
    else
      let p := splitAtExp rest
      (c :: p.1, p.2)

/-- Splits the character list at the first `.` (integer part, optional
fractional part). -/
def splitAtDot : List Char → List Char × Option (List Char)
  | [] => ([], none)
  | c :: rest =>
    if c = '.' then ([], some rest)
    else
      let p := splitAtDot rest
      (c :: p.1, p.2)

/-- An empty group or a digit run (used for the two sides of the decimal
point: `float()` accepts `1.`, `.5`, `1.5` but not `.`). -/
def digitsOpt (cs : List Char) : Bool :=
  cs.isEmpty || digits1 cs

/-- The mantissa of a `float()` literal: digits, optionally with one
decimal point, at least one digit overall. -/
def mantissaOk (cs : List Char) : Bool :=
  match splitAtDot cs with
  | (ip, none) => digits1 ip
  | (ip, some fp) => (!ip.isEmpty || !fp.isEmpty) && digitsOpt ip && digitsOpt fp

/-- The optional exponent of a `float()` literal: optional sign then a
digit run. -/
def expOk : Option (List Char) → Bool
  | none => true
  | some cs =>
    match cs with
    | '+' :: r => digits1 r
    | '-' :: r => digits1 r
    | r => digits1 r

/-- The body of a `float()` literal after the optional sign: the special
spellings `inf` / `infinity` / `nan` (any case), or mantissa plus optional
exponent. -/
def floatBody (cs : List Char) : Bool :=
  let l := cs.map lowChar
  if l == "inf".data || l == "infinity".data || l == "nan".data then true
  else
    match splitAtExp cs with
    | (m, e) => mantissaOk m && expOk e

/-- Success of CPython `float(s)` on the already-trimmed token (all call
sites in the source strip first): optional sign, then `floatBody`. -/
def floatParse (s : String) : Bool :=
  match s.data with
  | '+' :: rest => floatBody rest
  | '-' :: rest => floatBody rest
  | cs => floatBody cs

/-- `is_float` (csv_to_cdi.py lines 96-103): `float(s)` succeeds AND the
token is not also integer-parseable (keeps integer columns from being
demoted to decimal). -/
def is_float (s : String) : Bool :=
  floatParse s && !(is_int s)

/-- `is_bool` (csv_to_cdi.py lines 105-107): the lower-cased token is one
of the fixed recognized spellings.  Python `str.lower()` agrees with the
ASCII lowering used here on every token that can possibly match this ASCII
set. -/
def is_bool (s : String) : Bool :=
  let l := s.data.map lowChar
  (["true", "false", "t", "f", "0", "1", "yes", "no", "y", "n"] : List String).any
    (fun w => w.data == l)

/-- Modelled from the spec: the datasketch HyperLogLog sketch used by
`ColumnStats` is a third-party dependency (not part of this repository).
Per spec section 4.3 it is a deterministic hash-bucket sketch: `update`
hashes the observation to a bucket index and a rank and raises that bucket's
register to the maximum of its current value and the rank.  The hash itself
is a parameter of the model (it is a fixed deterministic function in
datasketch).  `bumpReg regs i r` is the register update; an out-of-range
bucket leaves the registers unchanged. -/
def bumpReg : List Nat → Nat → Nat → List Nat
  | [], _, _ => []
  | x :: xs, 0, r => max x r :: xs
  | x :: xs, i + 1, r => x :: bumpReg xs i r

/-- The XSD datatype resolved by `ColumnStats.xsd_datatype`. -/
inductive XsdType where
  | integer
  | decimal
  | boolean
  | dateTime
  | string
deriving DecidableEq, Repr

/-- The semantic role resolved by `ColumnStats.role`. -/
inductive Role where
  | identifier
  | measure
  | dimension
  | attribute
deriving DecidableEq, Repr

/-- `ColumnStats` (csv_to_cdi.py lines 119-146): per-column streaming
state.  `regs` is the HyperLogLog register array (the `hll` slot);
everything else mirrors the Python `__slots__` one for one
(`n_non_missing` / `n_rows` are the spec's `non_missing_count` /
`rows_seen`). -/
structure ColumnStats where
  name : String
  n_non_missing : Nat
  n_rows : Nat
  regs : List Nat
  could_be_int : Bool
  could_be_float : Bool
  could_be_bool : Bool
  could_be_datetime : Bool
deriving DecidableEq, Repr

/-- `ColumnStats.__init__` (csv_to_cdi.py lines 138-146): fresh accumulator
with `HyperLogLog(p=12)`, i.e. `2 ^ 12 = 4096` zeroed registers, and all
four candidacy flags true. -/
def ColumnStats.init (name : String) : ColumnStats :=
  { name := name
    n_non_missing := 0
    n_rows := 0
    regs := List.replicate 4096 0
    could_be_int := true
    could_be_float := true
    could_be_bool := true
    could_be_datetime := true }

/-- `ColumnStats.update` (csv_to_cdi.py lines 148-171).  `hash` abstracts
the datasketch hash (bucket, rank); `isdt` abstracts `is_datetime`
(csv_to_cdi.py lines 109-116), whose `dateutil` parser is a third-party
dependency modelled from the spec as an arbitrary total boolean predicate.
`raw = none` is the `None` absence marker.  The flag assignments
`b && p s` are the source's `if b and not p(s): b = False`. -/
def ColumnStats.update (hash : String → Nat × Nat) (isdt : String → Bool)
    (c : ColumnStats) (raw : Option String) : ColumnStats :=
  match raw with
  | none => { c with n_rows := c.n_rows + 1 }
  | some r =>
    let s := pyStrip r
    if MISSING.contains s then { c with n_rows := c.n_rows + 1 }
    else
      { name := c.name
        n_non_missing := c.n_non_missing + 1
        n_rows := c.n_rows + 1
        regs := bumpReg c.regs (hash s).1 (hash s).2
        could_be_int := c.could_be_int && is_int s
        could_be_float := c.could_be_float && (is_float s || is_int s)
        could_be_bool := c.could_be_bool && is_bool s
        could_be_datetime := c.could_be_datetime && isdt s }

/-- Feeding a whole stream of `update` inputs, first to last. -/
def ColumnStats.feed (hash : String → Nat × Nat) (isdt : String → Bool)
    (c : ColumnStats) (l : List (Option String)) : ColumnStats :=
  l.foldl (ColumnStats.update hash isdt) c

/-- `ColumnStats.xsd_datatype` (csv_to_cdi.py lines 173-183): fixed
priority integer > decimal > boolean > dateTime > string, each guarded by
`n_non_missing > 0`. -/
def ColumnStats.xsd_datatype (c : ColumnStats) : XsdType :=
  if c.could_be_int && decide (0 < c.n_non_missing) then .integer
  else if c.could_be_float && decide (0 < c.n_non_missing) then .decimal
  else if c.could_be_bool && decide (0 < c.n_non_missing) then .boolean
  else if c.could_be_datetime && decide (0 < c.n_non_missing) then .dateTime
  else .string

/-- `ColumnStats.approx_distinct` (csv_to_cdi.py lines 185-186):
`int(self.hll.count())`.  The estimate is a pure function of the register
array; the datasketch estimation formula (floating-point harmonic mean with
small/large-range corrections, truncated by `int()`) is abstracted as the
parameter `count`, which theorems quantify over. -/
def ColumnStats.approx_distinct (count : List Nat → Nat) (c : ColumnStats) : Nat :=
  count c.regs

/-- `ColumnStats.role` (csv_to_cdi.py lines 188-212).  The float
comparisons `uniq_ratio >= 0.95` / `< 0.95` are modelled exactly as the
rational comparison `20 * distinct ≥ 19 * max 1 n_non_missing`, and
`int(0.1 * n_non_missing)` as `n_non_missing / 10` (floor). -/
def ColumnStats.role (count : List Nat → Nat) (c : ColumnStats) : Role :=
  if c.n_non_missing = 0 then .attribute
  else
    let distinct := c.approx_distinct count
    if 19 * max 1 c.n_non_missing ≤ 20 * distinct ∧ 50 ≤ c.n_non_missing then .identifier
    else if (c.xsd_datatype = .integer ∨ c.xsd_datatype = .decimal)
            ∧ 20 * distinct < 19 * max 1 c.n_non_missing then .measure
    else if c.xsd_datatype = .boolean
            ∨ distinct ≤ min 50 (c.n_non_missing / 10) then .dimension
    else .attribute

/-- `detect_header_mode` (cdi_generator.py lines 279-354), over the parsed
rows of the file.  External collaborators are parameters: `isdt` is the
`dateutil`-backed `is_datetime`, and `sniffed` is the verdict
`csv.Sniffer().has_header(sample)` would give (defaulting to `True` when
the sample is empty or the sniffer raises — all absorbed into the
parameter).  An empty file (`StopIteration` on the first row) returns
`False`; otherwise, when the fraction of non-empty stripped first-row
cells that satisfy `is_int or is_float or is_bool or is_datetime` reaches
`typed_threshold = 0.75` (modelled exactly: `3 * total ≤ 4 * typed` with
`total ≠ 0`), the row is judged data and the header absent regardless of
`sniffed`; else the sniffer verdict stands. -/
def detect_header_mode (isdt : String → Bool) (sniffed : Bool)
    (rows : List (List String)) : Bool :=
  match rows with
  | [] => false
  | first :: _ =>
    let vals := (first.map pyStrip).filter (fun v => v ≠ "")
    let total := vals.length
    let typed :=
      (vals.filter (fun v => is_int v || is_float v || is_bool v || isdt v)).length
    if total ≠ 0 && 3 * total ≤ 4 * typed then false else sniffed

/-- The `header` argument of `stream_profile_csv`: Python `Union[bool, str]`. -/
inductive HeaderArg where
  | ofBool : Bool → HeaderArg
  | ofString : String → HeaderArg
deriving DecidableEq, Repr

/-- The fatal error kinds of `stream_profile_csv` (cdi_generator.py lines
722-727 and 812-815): `FileNotFoundError` for a missing file, `ValueError`
for an empty file, `ValueError` for a `UnicodeDecodeError` (unreachable in
this model because the file is opened with `errors="replace"`), and the
unified `RuntimeError("Error processing CSV file: ...")` wrapping any other
exception raised inside the `try` block. -/
inductive ProfileError where
  | fileNotFound
  | emptyFile
  | decodingError (msg : String)
  | processingError (msg : String)
deriving DecidableEq, Repr

/-- The header-mode resolution of `stream_profile_csv` (cdi_generator.py
lines 747-765), run inside the `try` block: a string argument is
lower-cased and matched against the three mode sets, anything else raises
`ValueError(f"Invalid header mode: {header}")`; a bool argument is taken
as-is; `auto` defers to `detect_header_mode`. -/
def resolveHeader (isdt : String → Bool) (sniffed : Bool)
    (rows : List (List String)) : HeaderArg → Except String Bool
  | .ofBool b => .ok b
  | .ofString s =>
    let key : String := ⟨s.data.map lowChar⟩
    if key = "auto" then .ok (detect_header_mode isdt sniffed rows)
    else if (["present", "true", "yes"] : List String).contains key then .ok true
    else if (["absent", "false", "no"] : List String).contains key then .ok false
    else .error ("Invalid header mode: " ++ s)

/-- Defensive row normalization of the scan loop (cdi_generator.py lines
790-794): pad a short row with empty strings, truncate a long one. -/
def padRow (ncols : Nat) (row : List String) : List String :=
  (row ++ List.replicate (ncols - row.length) "").take ncols

/-- `if limit_rows and data_rows_processed >= limit_rows: break`
(cdi_generator.py line 805); Python truthiness makes `None` and `0` both
mean "no limit". -/
def limitReached (limit : Option Nat) (processed : Nat) : Bool :=
  match limit with
  | none => false
  | some k => decide (k ≠ 0) && decide (k ≤ processed)

/-- The scan loop of `stream_profile_csv` (cdi_generator.py lines
787-807): dispatch every cell of every row to its accumulator by position,
counting rows, stopping early when the row limit is reached. -/
def scanRows (hash : String → Nat × Nat) (isdt : String → Bool) (ncols : Nat)
    (limit : Option Nat) (stats : List ColumnStats) (processed : Nat) :
    List (List String) → List ColumnStats × Nat
  | [] => (stats, processed)
  | row :: rest =>
    let padded := padRow ncols row
    let stats' := List.zipWith
      (fun st v => ColumnStats.update hash isdt st (some v)) stats padded
    if limitReached limit (processed + 1) then (stats', processed + 1)
    else scanRows hash isdt ncols limit stats' (processed + 1) rest

/-- One accumulator per resolved column (cdi_generator.py line 785):
`ColumnStats(name.strip() or f"col_{i+1}")`. -/
def initStats (columns : List String) : List ColumnStats :=
  columns.enum.map (fun p =>
    ColumnStats.init (if pyStrip p.2 = "" then "col_" ++ toString (p.1 + 1) else pyStrip p.2))

/-- The body of `stream_profile_csv`'s `try` block (cdi_generator.py lines
743-810) over the parsed rows: resolve the header decision, consume the
header row or synthesize `col_<i>` names (rewinding so the first row is
data), then run the scan loop.  Any raised error is a `String` here and is
wrapped by the caller. -/
def profileBody (hash : String → Nat × Nat) (isdt : String → Bool)
    (sniffed : Bool) (rows : List (List String)) (header : HeaderArg)
    (limit : Option Nat) :
    Except String (List String × List ColumnStats × Nat) :=
  match resolveHeader isdt sniffed rows header with
  | .error e => .error e
  | .ok hd =>
    if hd then
      match rows with
      | [] => .error "Empty CSV; no header row found."
      | hrow :: rest =>
        let columns := hrow
        .ok (columns, scanRows hash isdt columns.length limit (initStats columns) 0 rest)
    else
      match rows with
      | [] => .error "Empty CSV; no data rows found."
      | first :: _ =>
        let columns := (List.range first.length).map (fun i => "col_" ++ toString (i + 1))
        .ok (columns, scanRows hash isdt columns.length limit (initStats columns) 0 rows)

/-- `stream_profile_csv` (cdi_generator.py lines 707-815) over the parsed
rows.  `fileOnDisk` models `path.exists()`, `fileSize` models
`path.stat().st_size`; both checks run before the `try` block and raise
their own distinct error kinds.  Everything raised inside the `try`
(including the invalid-header-mode `ValueError`) is caught by
`except Exception` and re-raised as the unified
`RuntimeError("Error processing CSV file: ...")`.  Encoding and dialect
detection, MD5, and the byte-level CSV parse are external to the profiling
core and are absorbed into the `rows` parameter. -/
def stream_profile_csv (hash : String → Nat × Nat) (isdt : String → Bool)
    (sniffed : Bool) (fileOnDisk : Bool) (fileSize : Nat)
    (rows : List (List String)) (header : HeaderArg) (limit : Option Nat) :
    Except ProfileError (List String × List ColumnStats × Nat) :=
  if !fileOnDisk then .error .fileNotFound
  else if fileSize = 0 then .error .emptyFile
  else
    match profileBody hash isdt sniffed rows header limit with
    | .ok r => .ok r
    | .error msg => .error (.processingError ("Error processing CSV file: " ++ msg))

/-- The column-name component of a scan result, when the scan succeeded. -/
def profiledColumns (r : Except ProfileError (List String × List ColumnStats × Nat)) :
    Option (List String) :=
  match r with
  | .ok (cols, _, _) => some cols
  | .error _ => none

/-- An `update` input that increments `n_non_missing`: a supplied token
whose stripped value is outside the missing-value set. -/
def suppliedNonMissing : Option String → Bool
  | none => false
  | some r => !(MISSING.contains (pyStrip r))

/-- The original claim's side condition for C6: no *supplied* token matched
the missing-value set (an absence marker passes vacuously). -/
def noMissingSupplied (l : List (Option String)) : Bool :=
  l.all fun x => x.elim true (fun r => !(MISSING.contains (pyStrip r)))

/-- An `update` input that keeps `could_be_int` alive: absent, missing, or
integer-looking. -/
def keepInt : Option String → Bool
  | none => true
  | some r => MISSING.contains (pyStrip r) || is_int (pyStrip r)

/-- An `update` input that keeps `could_be_float` alive. -/
def keepFloat : Option String → Bool
  | none => true
  | some r => MISSING.contains (pyStrip r) || (is_float (pyStrip r) || is_int (pyStrip r))

/-- An `update` input that keeps `could_be_bool` alive. -/
def keepBool : Option String → Bool
  | none => true
  | some r => MISSING.contains (pyStrip r) || is_bool (pyStrip r)

/-- An `update` input that keeps `could_be_datetime` alive, relative to the
datetime classifier `isdt`. -/
def keepDt (isdt : String → Bool) : Option String → Bool
  | none => true
  | some r => MISSING.contains (pyStrip r) || isdt (pyStrip r)

section UpdateLemmas

variable (hash : String → Nat × Nat) (isdt : String → Bool)

lemma update_n_rows (c : ColumnStats) (x : Option String) :
    (c.update hash isdt x).n_rows = c.n_rows + 1 := by
  cases x with
  | none => rfl
  | some r =>
    simp only [ColumnStats.update]
    split <;> rfl

lemma update_n_non (c : ColumnStats) (x : Option String) :
    (c.update hash isdt x).n_non_missing
      = c.n_non_missing + (if suppliedNonMissing x then 1 else 0) := by
  cases x with
  | none => rfl
  | some r =>
    simp only [ColumnStats.update, suppliedNonMissing]
    by_cases h : pyStrip r ∈ MISSING <;> simp [h]

lemma update_could_int (c : ColumnStats) (x : Option String) :
    (c.update hash isdt x).could_be_int = (c.could_be_int && keepInt x) := by
  cases x with
  | none => simp [ColumnStats.update, keepInt]
  | some r =>
    simp only [ColumnStats.update, keepInt]
    by_cases h : pyStrip r ∈ MISSING <;> simp [h]

lemma update_could_float (c : ColumnStats) (x : Option String) :
    (c.update hash isdt x).could_be_float = (c.could_be_float && keepFloat x) := by
  cases x with
  | none => simp [ColumnStats.update, keepFloat]
  | some r =>
    simp only [ColumnStats.update, keepFloat]
    by_cases h : pyStrip r ∈ MISSING <;> simp [h]

lemma update_could_bool (c : ColumnStats) (x : Option String) :
    (c.update hash isdt x).could_be_bool = (c.could_be_bool && keepBool x) := by
  cases x with
  | none => simp [ColumnStats.update, keepBool]
  | some r =>
    simp only [ColumnStats.update, keepBool]
    by_cases h : pyStrip r ∈ MISSING <;> simp [h]

lemma update_could_dt (c : ColumnStats) (x : Option String) :
    (c.update hash isdt x).could_be_datetime = (c.could_be_datetime && keepDt isdt x) := by
  cases x with
  | none => simp [ColumnStats.update, keepDt]
  | some r =>
    simp only [ColumnStats.update, keepDt]
    by_cases h : pyStrip r ∈ MISSING <;> simp [h]

lemma feed_n_rows (c : ColumnStats) (l : List (Option String)) :
    (c.feed hash isdt l).n_rows = c.n_rows + l.length := by
  induction l generalizing c with
  | nil => simp [ColumnStats.feed]
  | cons x xs ih =>
    simp only [ColumnStats.feed, List.foldl_cons] at *
    rw [ih, update_n_rows, List.length_cons]
    omega

lemma feed_n_non (c : ColumnStats) (l : List (Option String)) :
    (c.feed hash isdt l).n_non_missing
      = c.n_non_missing + l.countP suppliedNonMissing := by
  induction l generalizing c with
  | nil => simp [ColumnStats.feed]
  | cons x xs ih =>
    simp only [ColumnStats.feed, List.foldl_cons] at *
    rw [ih, update_n_non, List.countP_cons]
    by_cases h : suppliedNonMissing x = true <;> simp [h] <;> try omega

lemma feed_could_int (c : ColumnStats) (l : List (Option String)) :
    (c.feed hash isdt l).could_be_int = (c.could_be_int && l.all keepInt) := by
  induction l generalizing c with
  | nil => simp [ColumnStats.feed]
  | cons x xs ih =>
    simp only [ColumnStats.feed, List.foldl_cons] at *
    rw [ih, update_could_int, List.all_cons, Bool.and_assoc]

lemma feed_could_float (c : ColumnStats) (l : List (Option String)) :
    (c.feed hash isdt l).could_be_float = (c.could_be_float && l.all keepFloat) := by
  induction l generalizing c with
  | nil => simp [ColumnStats.feed]
  | cons x xs ih =>
    simp only [ColumnStats.feed, List.foldl_cons] at *
    rw [ih, update_could_float, List.all_cons, Bool.and_assoc]

lemma feed_could_bool (c : ColumnStats) (l : List (Option String)) :
    (c.feed hash isdt l).could_be_bool = (c.could_be_bool && l.all keepBool) := by
  induction l generalizing c with
  | nil => simp [ColumnStats.feed]
  | cons x xs ih =>
    simp only [ColumnStats.feed, List.foldl_cons] at *
    rw [ih, update_could_bool, List.all_cons, Bool.and_assoc]

lemma feed_could_dt (c : ColumnStats) (l : List (Option String)) :
    (c.feed hash isdt l).could_be_datetime
      = (c.could_be_datetime && l.all (keepDt isdt)) := by
  induction l generalizing c with
  | nil => simp [ColumnStats.feed]
  | cons x xs ih =>
    simp only [ColumnStats.feed, List.foldl_cons] at *
    rw [ih, update_could_dt, List.all_cons, Bool.and_assoc]

end UpdateLemmas

lemma bumpReg_comm (l : List Nat) (i r j s : Nat) :
    bumpReg (bumpReg l i r) j s = bumpReg (bumpReg l j s) i r := by
  induction l generalizing i j with
  | nil => rfl
  | cons x xs ih =>
    cases i with
    | zero =>
      cases j with
      | zero =>
        simp only [bumpReg]
        rw [max_assoc, max_comm r s, ← max_assoc]
      | succ j => simp [bumpReg]
    | succ i =>
      cases j with
      | zero => simp [bumpReg]
      | succ j => simp [bumpReg, ih]

lemma bumpReg_idem (l : List Nat) (i r : Nat) :
    bumpReg (bumpReg l i r) i r = bumpReg l i r := by
  induction l generalizing i with
  | nil => rfl
  | cons x xs ih =>
    cases i with
    | zero =>
      simp only [bumpReg]
      rw [max_assoc, max_self]
    | succ i => simp [bumpReg, ih]

/-- Two consecutive `update` calls commute: the counters are pure
increments, the flags are conjunctions, and the HyperLogLog register
update is a pointwise `max`. -/
lemma update_comm (hash : String → Nat × Nat) (isdt : String → Bool)
    (c : ColumnStats) (a b : Option String) :
    (c.update hash isdt a).update hash isdt b
      = (c.update hash isdt b).update hash isdt a := by
  cases a with
  | none =>
    cases b with
    | none => rfl
    | some rb =>
      simp only [ColumnStats.update]
      split <;> rfl
  | some ra =>
    cases b with
    | none =>
      simp only [ColumnStats.update]
      split <;> rfl
    | some rb =>
      simp only [ColumnStats.update]
      by_cases ha : pyStrip ra ∈ MISSING <;>
        by_cases hb : pyStrip rb ∈ MISSING <;>
        simp [ha, hb, ColumnStats.mk.injEq, bumpReg_comm, Bool.and_right_comm]

/-- Every missing-value token fails the integer classifier. -/
lemma missing_not_int (s : String) (h : MISSING.contains s = true) :
    is_int s = false := by
  simp only [MISSING, List.contains_cons, List.contains_nil, Bool.or_eq_true,
    beq_iff_eq] at h
  rcases h with rfl | rfl | rfl | rfl | rfl | rfl | rfl | rfl | rfl | rfl | rfl | h <;>
    first
      | rfl
      | exact absurd h (by simp)

/-- `is_float` excludes integer-looking tokens by construction. -/
lemma is_float_not_int (s : String) (h : is_float s = true) : is_int s = false := by
  simp only [is_float, Bool.and_eq_true, Bool.not_eq_true'] at h
  exact h.2

/-- C1: for every column accumulator that has received only
integer-looking tokens (a non-empty list of supplied tokens, each of whose
stripped form is accepted by the integer classifier — the code applies the
classifiers to the stripped token), `xsd_datatype` resolves to integer and
`n_non_missing` counts every token; in particular the rows
`["1", "2", "3"]` yield integer with `n_non_missing = 3` (witness). -/
theorem c1_integer_tokens (hash : String → Nat × Nat) (isdt : String → Bool)
    (name : String) (ts : List String) (hne : ts ≠ [])
    (hint : ∀ t ∈ ts, is_int (pyStrip t) = true) :
    ((ColumnStats.init name).feed hash isdt (ts.map some)).xsd_datatype = .integer
    ∧ ((ColumnStats.init name).feed hash isdt (ts.map some)).n_non_missing = ts.length := by
  have hnm : ∀ t ∈ ts, ¬ (pyStrip t ∈ MISSING) := by
    intro t ht hmem
    have := missing_not_int (pyStrip t) (by simpa using hmem)
    rw [hint t ht] at this
    cases this
  have hflag : ((ColumnStats.init name).feed hash isdt (ts.map some)).could_be_int = true := by
    rw [feed_could_int]
    simp only [ColumnStats.init, Bool.true_and, List.all_eq_true]
    intro x hx
    rcases List.mem_map.1 hx with ⟨t, ht, rfl⟩
    simp [keepInt, hint t ht]
  have hcount :
      ((ColumnStats.init name).feed hash isdt (ts.map some)).n_non_missing = ts.length := by
    rw [feed_n_non]
    simp only [ColumnStats.init, Nat.zero_add]
    rw [List.countP_eq_length.2, List.length_map]
    intro x hx
    rcases List.mem_map.1 hx with ⟨t, ht, rfl⟩
    simp [suppliedNonMissing, hnm t ht]
  refine ⟨?_, hcount⟩
  have hpos : 0 < ((ColumnStats.init name).feed hash isdt (ts.map some)).n_non_missing := by
    rw [hcount]
    exact List.length_pos.2 hne
  simp [ColumnStats.xsd_datatype, hflag, hpos]

/-- Witness for C1 at the spec's scenario `["1", "2", "3"]`. -/
theorem c1_witness :
    ((ColumnStats.init "col").feed (fun _ => (0, 1)) (fun _ => false)
        (["1", "2", "3"].map some)).xsd_datatype = .integer
    ∧ ((ColumnStats.init "col").feed (fun _ => (0, 1)) (fun _ => false)
        (["1", "2", "3"].map some)).n_non_missing = 3 :=
  c1_integer_tokens (fun _ => (0, 1)) (fun _ => false) "col" ["1", "2", "3"]
    (by decide) (by decide)

/-- C4: type-candidacy flags are monotone: across any further sequence of
`update` calls from any accumulator state, a flag that ends true was
already true — no call flips a flag from false to true. -/
theorem c4_flags_monotone (hash : String → Nat × Nat) (isdt : String → Bool)
    (c : ColumnStats) (l : List (Option String)) :
    ((c.feed hash isdt l).could_be_int = true → c.could_be_int = true)
    ∧ ((c.feed hash isdt l).could_be_float = true → c.could_be_float = true)
    ∧ ((c.feed hash isdt l).could_be_bool = true → c.could_be_bool = true)
    ∧ ((c.feed hash isdt l).could_be_datetime = true → c.could_be_datetime = true) := by
  refine ⟨?_, ?_, ?_, ?_⟩ <;> intro h
  · rw [feed_could_int] at h
    simp only [Bool.and_eq_true] at h
    exact h.1
  · rw [feed_could_float] at h
    simp only [Bool.and_eq_true] at h
    exact h.1
  · rw [feed_could_bool] at h
    simp only [Bool.and_eq_true] at h
    exact h.1
  · rw [feed_could_dt] at h
    simp only [Bool.and_eq_true] at h
    exact h.1

/-- Witness for C4: a concrete accumulator whose integer flag is still true
after an update was already true before it. -/
theorem c4_witness : (ColumnStats.init "w").could_be_int = true :=
  (c4_flags_monotone (fun _ => (0, 1)) (fun _ => false)
      (ColumnStats.init "w") [some "7"]).1 (by decide)

/-- C9: `ColumnStats.update` is a total function of its inputs — for the
absence marker `none` and for every string token whatsoever it completes
normally and performs its unconditional first effect, incrementing
`n_rows` by exactly one.  The classifier predicates are total boolean
functions in this embedding because the source wraps each fallible parse
in `try/except` (and `dateutil`, modelled by the arbitrary total `isdt`,
is specified to reject by returning rather than raising). -/
theorem c9_update_total (hash : String → Nat × Nat) (isdt : String → Bool)
    (c : ColumnStats) (raw : Option String) :
    (c.update hash isdt raw).n_rows = c.n_rows + 1 :=
  update_n_rows hash isdt c raw

/-- C10: re-inserting the same byte string leaves the HyperLogLog register
state exactly unchanged (`max` is idempotent), so feeding a duplicate
token to an accumulator changes only `n_rows` and `n_non_missing`: the
registers, all four flags, and hence `approx_distinct` under any estimate
function are identical after the second `update` with the same token. -/
theorem c10_duplicate_unchanged :
    (∀ (regs : List Nat) (i r : Nat), bumpReg (bumpReg regs i r) i r = bumpReg regs i r)
    ∧ ∀ (hash : String → Nat × Nat) (isdt : String → Bool)
        (count : List Nat → Nat) (c : ColumnStats) (s : String),
        ((c.update hash isdt (some s)).update hash isdt (some s)).regs
            = (c.update hash isdt (some s)).regs
        ∧ ((c.update hash isdt (some s)).update hash isdt (some s)).could_be_int
            = (c.update hash isdt (some s)).could_be_int
        ∧ ((c.update hash isdt (some s)).update hash isdt (some s)).could_be_float
            = (c.update hash isdt (some s)).could_be_float
        ∧ ((c.update hash isdt (some s)).update hash isdt (some s)).could_be_bool
            = (c.update hash isdt (some s)).could_be_bool
        ∧ ((c.update hash isdt (some s)).update hash isdt (some s)).could_be_datetime
            = (c.update hash isdt (some s)).could_be_datetime
        ∧ ((c.update hash isdt (some s)).update hash isdt (some s)).approx_distinct count
            = (c.update hash isdt (some s)).approx_distinct count
        ∧ ((c.update hash isdt (some s)).update hash isdt (some s)).n_rows
            = (c.update hash isdt (some s)).n_rows + 1 := by
  refine ⟨bumpReg_idem, ?_⟩
  intro hash isdt count c s
  have hregs : ((c.update hash isdt (some s)).update hash isdt (some s)).regs
      = (c.update hash isdt (some s)).regs := by
    simp only [ColumnStats.update]
    by_cases h : pyStrip s ∈ MISSING <;> simp [h, bumpReg_idem]
  refine ⟨hregs, ?_, ?_, ?_, ?_, ?_, update_n_rows hash isdt _ _⟩
  · rw [update_could_int, update_could_int, Bool.and_assoc, Bool.and_self]
  · rw [update_could_float, update_could_float, Bool.and_assoc, Bool.and_self]
  · rw [update_could_bool, update_could_bool, Bool.and_assoc, Bool.and_self]
  · rw [update_could_dt, update_could_dt, Bool.and_assoc, Bool.and_self]
  · simp only [ColumnStats.approx_distinct, hregs]

/-- C3: permutation invariance — feeding the same multiset of update
inputs in any order yields the same final state, hence the same resolved
datatype and the same `approx_distinct` value (the sketch merges by `max`,
which is commutative, and the flag updates commute). -/
theorem c3_order_independence (hash : String → Nat × Nat) (isdt : String → Bool)
    (count : List Nat → Nat) (name : String)
    (l₁ l₂ : List (Option String)) (hperm : l₁.Perm l₂) :
    ((ColumnStats.init name).feed hash isdt l₁).xsd_datatype
        = ((ColumnStats.init name).feed hash isdt l₂).xsd_datatype
    ∧ ((ColumnStats.init name).feed hash isdt l₁).approx_distinct count
        = ((ColumnStats.init name).feed hash isdt l₂).approx_distinct count := by
  have hfeed : (ColumnStats.init name).feed hash isdt l₁
      = (ColumnStats.init name).feed hash isdt l₂ :=
    hperm.foldl_eq' (fun a _ b _ c => update_comm hash isdt c a b) (ColumnStats.init name)
  rw [hfeed]
  exact ⟨rfl, rfl⟩

/-- Witness for C3 on a concrete transposition. -/
theorem c3_witness :
    ((ColumnStats.init "c").feed (fun _ => (0, 1)) (fun _ => false)
        [some "a", some "1"]).xsd_datatype
      = ((ColumnStats.init "c").feed (fun _ => (0, 1)) (fun _ => false)
        [some "1", some "a"]).xsd_datatype
    ∧ ((ColumnStats.init "c").feed (fun _ => (0, 1)) (fun _ => false)
        [some "a", some "1"]).approx_distinct (fun _ => 0)
      = ((ColumnStats.init "c").feed (fun _ => (0, 1)) (fun _ => false)
        [some "1", some "a"]).approx_distinct (fun _ => 0) :=
  c3_order_independence (fun _ => (0, 1)) (fun _ => false) (fun _ => 0) "c"
    [some "a", some "1"] [some "1", some "a"] (List.Perm.swap (some "1") (some "a") [])

/-- C6 counterexample: the claim's biconditional fails on the absence
marker.  Feeding the single input `None` gives `rows_seen = 1` but
`non_missing_count = 0`, even though no *supplied token* matched the
missing-value set (there was no supplied token at all), so equality does
not hold where the claim says it must. -/
theorem c6_counterexample :
    noMissingSupplied [none] = true
    ∧ ((ColumnStats.init "c").feed (fun _ => (0, 1)) (fun _ => false) [none]).n_non_missing
        ≠ ((ColumnStats.init "c").feed (fun _ => (0, 1)) (fun _ => false) [none]).n_rows := by
  refine ⟨by decide, by decide⟩

/-- C6 amended: for every stream of `update` inputs,
`n_non_missing ≤ n_rows`, and equality holds iff every input was a
supplied (non-`None`) token whose stripped value is outside the
missing-value set — an absence marker also breaks equality, which the
original claim overlooked. -/
theorem c6_counts (hash : String → Nat × Nat) (isdt : String → Bool)
    (name : String) (l : List (Option String)) :
    ((ColumnStats.init name).feed hash isdt l).n_non_missing
        ≤ ((ColumnStats.init name).feed hash isdt l).n_rows
    ∧ (((ColumnStats.init name).feed hash isdt l).n_non_missing
          = ((ColumnStats.init name).feed hash isdt l).n_rows
        ↔ l.all suppliedNonMissing = true) := by
  rw [feed_n_rows, feed_n_non]
  simp only [ColumnStats.init, Nat.zero_add]
  constructor
  · exact List.countP_le_length _
  · constructor
    · intro h
      exact List.all_eq_true.2 (List.countP_eq_length.1 h)
    · intro h
      exact List.countP_eq_length.2 (List.all_eq_true.1 h)

/-- C2 counterexample: the rows `["1", "nan"]` contain the float-only
token `"nan"` (float-parseable, not integer-parseable — exactly the
claim's definition) and otherwise only int tokens, yet the column resolves
to integer, not decimal: `"nan"` is also a missing-value token and is
skipped before any flag is consulted. -/
theorem c2_counterexample :
    is_float "nan" = true
    ∧ is_int "1" = true
    ∧ ((ColumnStats.init "c").feed (fun _ => (0, 1)) (fun _ => false)
        [some "1", some "nan"]).xsd_datatype = .integer := by
  refine ⟨by decide, by decide, by decide⟩

/-- C2 amended: for token lists containing at least one float-only token
and otherwise only int/float tokens, *none of which is (after stripping) a
missing-value token*, the column resolves to decimal — never integer.
The missing-value proviso is forced by `"nan"`/`"NaN"`, which are
float-only yet belong to `MISSING` and are skipped. -/
theorem c2_decimal (hash : String → Nat × Nat) (isdt : String → Bool)
    (name : String) (ts : List String)
    (hnm : ∀ t ∈ ts, ¬ (pyStrip t ∈ MISSING))
    (hall : ∀ t ∈ ts, is_float (pyStrip t) = true ∨ is_int (pyStrip t) = true)
    (hfl : ∃ t ∈ ts, is_float (pyStrip t) = true) :
    ((ColumnStats.init name).feed hash isdt (ts.map some)).xsd_datatype = .decimal := by
  rcases hfl with ⟨t₀, ht₀, hft₀⟩
  have hint : ((ColumnStats.init name).feed hash isdt (ts.map some)).could_be_int = false := by
    rw [feed_could_int]
    simp only [ColumnStats.init, Bool.true_and]
    refine List.all_eq_false.2 ⟨some t₀, List.mem_map_of_mem some ht₀, ?_⟩
    simp [keepInt, hnm t₀ ht₀, is_float_not_int _ hft₀]
  have hfloat : ((ColumnStats.init name).feed hash isdt (ts.map some)).could_be_float = true := by
    rw [feed_could_float]
    simp only [ColumnStats.init, Bool.true_and, List.all_eq_true]
    intro x hx
    rcases List.mem_map.1 hx with ⟨t, ht, rfl⟩
    rcases hall t ht with hf | hi
    · simp [keepFloat, hf]
    · simp [keepFloat, hi]
  have hpos : 0 < ((ColumnStats.init name).feed hash isdt (ts.map some)).n_non_missing := by
    rw [feed_n_non]
    simp only [ColumnStats.init, Nat.zero_add]
    have : suppliedNonMissing (some t₀) = true := by
      simp [suppliedNonMissing, hnm t₀ ht₀]
    exact List.countP_pos_iff.2 ⟨some t₀, List.mem_map_of_mem some ht₀, this⟩
  simp [ColumnStats.xsd_datatype, hint, hfloat, hpos]

/-- Witness for C2 amended at `["1.5"]`. -/
theorem c2_witness :
    ((ColumnStats.init "c").feed (fun _ => (0, 1)) (fun _ => false)
        (["1.5"].map some)).xsd_datatype = .decimal :=
  c2_decimal (fun _ => (0, 1)) (fun _ => false) "c" ["1.5"]
    (by decide) (by decide) ⟨"1.5", by decide, by decide⟩

/-- Fifty pairwise-distinct spellings accepted by `is_bool`: all 32
casings of `false`, all 16 casings of `true`, and `0`, `1`. -/
def boolTok50 : List String :=
  ["false", "falsE", "falSe", "falSE", "faLse", "faLsE", "faLSe", "faLSE",
   "fAlse", "fAlsE", "fAlSe", "fAlSE", "fALse", "fALsE", "fALSe", "fALSE",
   "False", "FalsE", "FalSe", "FalSE", "FaLse", "FaLsE", "FaLSe", "FaLSE",
   "FAlse", "FAlsE", "FAlSe", "FAlSE", "FALse", "FALsE", "FALSe", "FALSE",
   "true", "truE", "trUe", "trUE", "tRue", "tRuE", "tRUe", "tRUE", "True",
   "TruE", "TrUe", "TrUE", "TRue", "TRuE", "TRUe", "TRUE", "0", "1"]

/-- A hash sending each of the fifty boolean spellings to its own bucket
(as the real sha1-based hash does with overwhelming probability for fifty
short distinct strings), with rank 1. -/
def boolTokHash (s : String) : Nat × Nat :=
  (boolTok50.indexOf s, 1)

/-- A distinct-count estimate in the linear-counting regime datasketch
uses at low register occupancy: the number of occupied registers, read
from the first 64 buckets — on every state reached below the hash occupies
only buckets 0..49, so this equals the full occupied-register count. -/
def occupiedCount (regs : List Nat) : Nat :=
  (regs.take 64).countP (fun r => decide (r ≠ 0))

set_option maxRecDepth 8000 in
/-- C5 counterexample: a column fed the fifty distinct boolean spellings
of `boolTok50` resolves to the boolean datatype, yet `role()` returns
identifier: `is_bool` accepts about seventy distinct byte strings, so a
boolean column can reach 50 non-missing values that are ≥ 95% distinct,
and the identifier rule is evaluated before the datatype is consulted.
This refutes "a boolean column with 95% uniqueness is impossible by
construction since booleans have at most 2 distinct values". -/
theorem c5_counterexample :
    ((ColumnStats.init "v").feed boolTokHash (fun _ => false)
        (boolTok50.map some)).xsd_datatype = .boolean
    ∧ ((ColumnStats.init "v").feed boolTokHash (fun _ => false)
        (boolTok50.map some)).role occupiedCount = .identifier := by
  refine ⟨by decide, by decide⟩

/-- C5 amended: the identifier rule is decided purely by the uniqueness
ratio and the non-missing floor, *before* the datatype is consulted: any
accumulator state with `n_non_missing ≥ 50` and estimated uniqueness ratio
≥ 0.95 resolves to the identifier role, its datatype (boolean included)
notwithstanding.  A boolean-resolved column therefore *can* return
identifier (see the counterexample); it avoids doing so only when its
distinct estimate stays below 95% of its non-missing count. -/
theorem c5_identifier_rule (count : List Nat → Nat) (c : ColumnStats)
    (hfifty : 50 ≤ c.n_non_missing)
    (hratio : 19 * max 1 c.n_non_missing ≤ 20 * c.approx_distinct count) :
    c.role count = .identifier := by
  rw [ColumnStats.role]
  rw [if_neg (by omega)]
  rw [if_pos ⟨hratio, hfifty⟩]

/-- Witness for C5 amended on a concrete state with 50 non-missing values
and 50 occupied registers. -/
theorem c5_witness :
    (ColumnStats.role occupiedCount
      ⟨"x", 50, 50, List.replicate 50 1, false, false, true, false⟩) = .identifier :=
  c5_identifier_rule occupiedCount
    ⟨"x", 50, 50, List.replicate 50 1, false, false, true, false⟩
    (by decide) (by decide)

/-- C7: in auto header-detection mode, whenever the typed-cell fraction of
the non-empty stripped first-row cells reaches the 0.75 threshold, the
header is judged absent regardless of the generic header heuristic's
verdict (`sniffed` is universally quantified); and on the spec's scenario
— a headerless file whose first row is `1, 2020-01-15, 95.5, John Doe`
with a similar second row, scanned with auto detection — the columns are
synthesized as `col_1..col_4` for any sniffer verdict, hash, and row
limit, assuming only that the datetime classifier accepts `2020-01-15` and
rejects `John Doe` (as `dateutil` does). -/
theorem c7_typed_ratio_header (hash : String → Nat × Nat) :
    (∀ (isdt : String → Bool) (sniffed : Bool) (first : List String)
        (rest : List (List String)),
      ((first.map pyStrip).filter (fun v => v ≠ "")).length ≠ 0 →
      3 * ((first.map pyStrip).filter (fun v => v ≠ "")).length
        ≤ 4 * (((first.map pyStrip).filter (fun v => v ≠ "")).filter
            (fun v => is_int v || is_float v || is_bool v || isdt v)).length →
      detect_header_mode isdt sniffed (first :: rest) = false)
    ∧ ∀ (isdt : String → Bool) (sniffed : Bool) (limit : Option Nat),
        isdt "2020-01-15" = true → isdt "John Doe" = false →
        profiledColumns (stream_profile_csv hash isdt sniffed true 1
            [["1", "2020-01-15", "95.5", "John Doe"],
             ["2", "2021-03-22", "88.2", "Jane Smith"]]
            (.ofString "auto") limit)
          = some ["col_1", "col_2", "col_3", "col_4"] := by
  constructor
  · intro isdt sniffed first rest htot hratio
    simp only [detect_header_mode]
    rw [if_pos]
    simp only [Bool.and_eq_true, decide_eq_true_eq, ne_eq]
    exact ⟨htot, hratio⟩
  · intro isdt sniffed limit hdt₁ hdt₂
    have e₁ : is_int "1" = true := by decide
    have e₂ : is_int "2020-01-15" = false := by decide
    have e₃ : is_float "2020-01-15" = false := by decide
    have e₄ : is_bool "2020-01-15" = false := by decide
    have e₅ : is_float "95.5" = true := by decide
    have e₆ : is_int "John Doe" = false := by decide
    have e₇ : is_float "John Doe" = false := by decide
    have e₈ : is_bool "John Doe" = false := by decide
    have hdet : detect_header_mode isdt sniffed
        [["1", "2020-01-15", "95.5", "John Doe"],
         ["2", "2021-03-22", "88.2", "Jane Smith"]] = false := by
      simp only [detect_header_mode]
      rw [if_pos]
      have hvals : ((["1", "2020-01-15", "95.5", "John Doe"].map pyStrip).filter
          (fun v => v ≠ "")) = ["1", "2020-01-15", "95.5", "John Doe"] := by decide
      rw [hvals]
      simp [List.filter, e₁, e₂, e₃, e₄, e₅, e₆, e₇, e₈, hdt₁, hdt₂]
    simp only [stream_profile_csv, profileBody, resolveHeader, Bool.not_true,
      Bool.false_eq_true, if_false, reduceIte]
    rw [show (⟨"auto".data.map lowChar⟩ : String) = "auto" from by decide]
    simp only [reduceIte, hdet]
    rfl

/-- Witness for C7: the typed-ratio clause at a concrete all-numeric first
row, and the scenario clause at a concrete datetime classifier. -/
theorem c7_witness :
    detect_header_mode (fun _ => false) true [["1", "2", "3", "x"]] = false
    ∧ profiledColumns (stream_profile_csv (fun _ => (0, 1))
          (fun s => s == "2020-01-15") true true 1
          [["1", "2020-01-15", "95.5", "John Doe"],
           ["2", "2021-03-22", "88.2", "Jane Smith"]]
          (.ofString "auto") none)
        = some ["col_1", "col_2", "col_3", "col_4"] :=
  ⟨(c7_typed_ratio_header (fun _ => (0, 1))).1 (fun _ => false) true
      ["1", "2", "3", "x"] [] (by decide) (by decide),
   (c7_typed_ratio_header (fun _ => (0, 1))).2 (fun s => s == "2020-01-15")
      true none (by decide) (by decide)⟩

/-- C8 counterexample: an invalid header-mode string does abort before any
row is scanned, but it surfaces as the unified generic processing-error
kind (`RuntimeError("Error processing CSV file: ...")`), not as a distinct
input-validation failure: the `ValueError` is raised inside the `try`
block and re-wrapped by `except Exception`.  This contradicts the claim
that all three conditions fail "as an input-validation failure distinct
from the unified generic processing-error kind". -/
theorem c8_counterexample :
    stream_profile_csv (fun _ => (0, 1)) (fun _ => false) true true 1
        [["a"]] (.ofString "bogus") none
      = .error (.processingError "Error processing CSV file: Invalid header mode: bogus") :=
  rfl

/-- C8 amended: a missing file fails as `FileNotFoundError` and an empty
file as `ValueError` — both genuinely distinct input-validation kinds
raised before the `try` block — while an invalid header-mode string also
fails before any row scanning and yields no column summary, but is
surfaced wrapped in the unified generic processing-error kind. -/
theorem c8_error_kinds :
    (∀ (hash : String → Nat × Nat) (isdt : String → Bool) (sniffed : Bool)
        (size : Nat) (rows : List (List String)) (hdr : HeaderArg) (limit : Option Nat),
      stream_profile_csv hash isdt sniffed false size rows hdr limit
        = .error .fileNotFound)
    ∧ (∀ (hash : String → Nat × Nat) (isdt : String → Bool) (sniffed : Bool)
        (rows : List (List String)) (hdr : HeaderArg) (limit : Option Nat),
      stream_profile_csv hash isdt sniffed true 0 rows hdr limit
        = .error .emptyFile)
    ∧ ∀ (hash : String → Nat × Nat) (isdt : String → Bool) (sniffed : Bool)
        (size : Nat) (rows : List (List String)) (s : String) (limit : Option Nat),
        size ≠ 0 →
        (⟨s.data.map lowChar⟩ : String) ≠ "auto" →
        ¬ ((⟨s.data.map lowChar⟩ : String) ∈ (["present", "true", "yes"] : List String)) →
        ¬ ((⟨s.data.map lowChar⟩ : String) ∈ (["absent", "false", "no"] : List String)) →
        stream_profile_csv hash isdt sniffed true size rows (.ofString s) limit
          = .error (.processingError ("Error processing CSV file: Invalid header mode: " ++ s)) := by
  refine ⟨fun _ _ _ _ _ _ _ => rfl, fun _ _ _ _ _ _ => rfl, ?_⟩
  intro hash isdt sniffed size rows s limit hsize hauto hpresent habsent
  simp only [stream_profile_csv, profileBody, resolveHeader, Bool.not_true,
    Bool.false_eq_true, if_false, reduceIte]
  rw [if_neg hsize, if_neg hauto, if_neg (by simpa using hpresent),
    if_neg (by simpa using habsent)]
  rfl

/-- Witness for C8 amended: all three clauses at concrete inputs. -/
theorem c8_witness :
    stream_profile_csv (fun _ => (0, 1)) (fun _ => false) true false 1
        [["a"]] (.ofBool true) none = .error .fileNotFound
    ∧ stream_profile_csv (fun _ => (0, 1)) (fun _ => false) true true 0
        [["a"]] (.ofBool true) none = .error .emptyFile
    ∧ stream_profile_csv (fun _ => (0, 1)) (fun _ => false) true true 1
        [["a"]] (.ofString "Bogus") none
      = .error (.processingError "Error processing CSV file: Invalid header mode: Bogus") :=
  ⟨(c8_error_kinds).1 (fun _ => (0, 1)) (fun _ => false) true 1 [["a"]] (.ofBool true) none,
   (c8_error_kinds).2.1 (fun _ => (0, 1)) (fun _ => false) true [["a"]] (.ofBool true) none,
   (c8_error_kinds).2.2 (fun _ => (0, 1)) (fun _ => false) true 1 [["a"]] "Bogus" none
     (by decide) (by decide) (by decide) (by decide)⟩

/-- Witness for C6 amended: equality holds on a stream with one supplied
non-missing token. -/
theorem c6_witness :
    ((ColumnStats.init "w6").feed (fun _ => (0, 1)) (fun _ => false)
        [some "5"]).n_non_missing
      = ((ColumnStats.init "w6").feed (fun _ => (0, 1)) (fun _ => false)
        [some "5"]).n_rows :=
  (c6_counts (fun _ => (0, 1)) (fun _ => false) "w6" [some "5"]).2.2 (by decide)

end Profiling
